import Mathlib

/-!
Shallow embedding of the technical-signal engine (src: `getTradeSignal` and
`getRiskAssessment`).  JS numbers are modelled as exact rationals (ℚ); the one
place where JS produces NaN that the control flow can observe (the 0/0 in the
risk assessor's average return, and RSI on an all-flat window) is modelled
explicitly, as noted at each definition.  `Math.round` is `jsRound` below
(round half toward +∞).  The wall clock read by `new Date()` is passed in as an
explicit `now` parameter.
-/

namespace TradeBot

/-- Trade direction, the closed enumeration behind the source's
`'BUY' | 'SELL' | 'HOLD'` string union. -/
inductive Direction where
  | BUY
  | SELL
  | HOLD
deriving DecidableEq, Repr

/-- Risk tier, the closed enumeration behind `'LOW' | 'MEDIUM' | 'HIGH'`. -/
inductive RiskLevel where
  | LOW
  | MEDIUM
  | HIGH
deriving DecidableEq, Repr

/-- JS `Math.round`: round half toward +∞, i.e. `⌊x + 1/2⌋`. -/
def jsRound (q : ℚ) : ℤ := ⌊q + 1/2⌋

/-- Latest MACD triple as produced by the library: the MACD line, its signal
line, and the histogram (line − signal). -/
structure MacdVal where
  MACD : ℚ
  signal : ℚ
  histogram : ℚ
deriving DecidableEq, Repr

/-- Latest Bollinger-band window, carried as middle (SMA20 of the window) and
the population variance of the window.  The JS object stores
`upper/lower = middle ± 2·√variance`; since √variance is irrational over ℚ the
band comparisons below (`leLower`, `geUpper`) encode the comparisons against
`middle ± 2·√variance` by their exact squared equivalents. -/
structure BBVal where
  middle : ℚ
  variance : ℚ
deriving DecidableEq, Repr

/-- Modelled from the spec: `SMA.calculate` of the `technicalindicators`
library (not under src/): latest simple moving average over the trailing `n`
values; absent when fewer than `n` values exist. -/
def smaLast (n : ℕ) (prices : List ℚ) : Option ℚ :=
  if n = 0 ∨ prices.length < n then none
  else some ((prices.drop (prices.length - n)).sum / n)

/-- One exponential-smoothing step with period `n`: `(price − prev)·2/(n+1) + prev`. -/
def emaStep (n : ℕ) (prev price : ℚ) : ℚ := (price - prev) * (2 / (n + 1)) + prev

/-- Modelled from the spec: `EMA.calculate` of the `technicalindicators`
library (not under src/): the sequence of EMA values with period `n`, seeded
with the SMA of the first `n` values (the library's seeding), one value per
index from `n−1` to the end of the series.  Empty when the series is shorter
than `n`. -/
def emaSeq (n : ℕ) (prices : List ℚ) : List ℚ :=
  if n = 0 ∨ prices.length < n then []
  else (prices.drop n).scanl (emaStep n) ((prices.take n).sum / n)

/-- Latest EMA value with period `n`; absent when the series is too short. -/
def emaLast (n : ℕ) (prices : List ℚ) : Option ℚ := (emaSeq n prices).getLast?

/-- Modelled from the spec: the MACD line series `EMA12 − EMA26`, one value per
index from 25 to the end of the series (`emaSeq 12` starts at index 11, so its
first 14 entries are dropped to align with `emaSeq 26` at index 25). -/
def macdLineSeq (prices : List ℚ) : List ℚ :=
  List.zipWith (fun a b => a - b) ((emaSeq 12 prices).drop 14) (emaSeq 26 prices)

/-- Modelled from the spec: latest MACD triple of `MACD.calculate` with
periods 12/26/9 and exponential smoothing; the signal line is the EMA9 of the
MACD line series.  Absent (the source's `undefined`-field check) when the line
or its signal cannot be computed yet. -/
def macdLast (prices : List ℚ) : Option MacdVal :=
  match (macdLineSeq prices).getLast?, (emaSeq 9 (macdLineSeq prices)).getLast? with
  | some l, some s => some ⟨l, s, l - s⟩
  | _, _ => none

/-- Per-period gains: `max (cur − prev) 0` for each consecutive pair. -/
def gains (prices : List ℚ) : List ℚ :=
  List.zipWith (fun prev cur => max (cur - prev) 0) prices prices.tail

/-- Per-period losses: `max (prev − cur) 0` for each consecutive pair. -/
def losses (prices : List ℚ) : List ℚ :=
  List.zipWith (fun prev cur => max (prev - cur) 0) prices prices.tail

/-- Wilder smoothing with the given period: seed with the mean of the first
`period` deltas, then `avg ← (avg·(period−1) + d)/period` for each later delta;
absent when fewer than `period` deltas exist. -/
def wilder (period : ℕ) (deltas : List ℚ) : Option ℚ :=
  if period = 0 ∨ deltas.length < period then none
  else some ((deltas.drop period).foldl
    (fun avg d => (avg * (period - 1 : ℕ) + d) / period)
    ((deltas.take period).sum / period))

/-- Modelled from the spec: latest RSI of `RSI.calculate` with period 14
(Wilder smoothing, not under src/): `100 − 100/(1 + avgGain/avgLoss)`.
When `avgLoss = 0` and `avgGain > 0` the JS quotient is `Infinity` and the RSI
is exactly 100; when both averages are 0 the JS RSI is NaN, which every use in
the source (the `latestRSI &&` truthiness guard and the `latestRSI || 0`
output coercion) treats exactly like the number 0, so the model returns 0
there. -/
def rsiLast (prices : List ℚ) : Option ℚ :=
  match wilder 14 (gains prices), wilder 14 (losses prices) with
  | some g, some l =>
      if l = 0 then (if g = 0 then some 0 else some 100)
      else some (100 - 100 / (1 + g / l))
  | _, _ => none

/-- Modelled from the spec: latest Bollinger window of `BollingerBands.calculate`
with period 20 and 2 standard deviations (not under src/): middle = SMA20 of
the trailing 20 prices, variance = population variance of that window. -/
def bbLast (prices : List ℚ) : Option BBVal :=
  if prices.length < 20 then none
  else
    let w := prices.drop (prices.length - 20)
    let m := w.sum / 20
    some ⟨m, (w.map (fun p => (p - m) ^ 2)).sum / 20⟩

/-- Exact form of the JS comparison `currentPrice <= latestBB.lower`, i.e.
`price ≤ middle − 2·√variance`, encoded without the irrational square root:
both sides of `middle − price ≥ 2·√variance` are nonnegative exactly when the
stated conjunction holds. -/
def leLower (price : ℚ) (bb : BBVal) : Bool :=
  decide (0 ≤ bb.middle - price) && decide (4 * bb.variance ≤ (bb.middle - price) ^ 2)

/-- Exact form of the JS comparison `currentPrice >= latestBB.upper`, i.e.
`price ≥ middle + 2·√variance`, encoded by squaring as in `leLower`. -/
def geUpper (price : ℚ) (bb : BBVal) : Bool :=
  decide (0 ≤ price - bb.middle) && decide (4 * bb.variance ≤ (price - bb.middle) ^ 2)

/-- The indicator snapshot the source computes before voting: latest value of
each indicator, absent (`none`) when its window does not fit. -/
structure Snapshot where
  rsi : Option ℚ
  macd : Option MacdVal
  bb : Option BBVal
  sma20 : Option ℚ
  ema12 : Option ℚ
deriving DecidableEq, Repr

/-- The five indicator computations of `getTradeSignal` (source lines 49-72). -/
def computeSnapshot (prices : List ℚ) : Snapshot :=
  ⟨rsiLast prices, macdLast prices, bbLast prices, smaLast 20 prices, emaLast 12 prices⟩

/-- `prices[prices.length - 1]`; only evaluated by the source on series of
length ≥ 50, so the default for the empty list is never observable. -/
def currentPrice (prices : List ℚ) : ℚ := (prices.getLast?).getD 0

/-- Rule-description tags pushed into `reasons` (source). The source
interpolates the RSI value into the first two; no downstream test looks inside
the text, so the tags are kept as their constant prefixes. -/
def rsiOversoldTag : String := "RSI oversold"

def rsiOverboughtTag : String := "RSI overbought"

def macdBullishTag : String := "MACD bullish crossover"

def macdBearishTag : String := "MACD bearish crossover"

def bbLowerTag : String := "Price touching lower Bollinger Band"

def bbUpperTag : String := "Price touching upper Bollinger Band"

def maBullishTag : String := "Price above SMA20 with EMA12 bullish"

def maBearishTag : String := "Price below SMA20 with EMA12 bearish"

def volBullishTag : String := "High volume supporting bullish trend"

def volBearishTag : String := "High volume supporting bearish trend"

/-- RSI votes (source lines 80-86).  The JS guard is
`latestRSI && latestRSI < 30`: an absent value, the number 0 and NaN are all
falsy, so the guard is `r ≠ 0` on the model's value (the NaN case is already
mapped to 0 by `rsiLast`). -/
def rsiVotes (rsi : Option ℚ) : ℕ × ℕ × List String :=
  match rsi with
  | some r =>
      if r ≠ 0 ∧ r < 30 then (2, 0, [rsiOversoldTag])
      else if r ≠ 0 ∧ 70 < r then (0, 2, [rsiOverboughtTag])
      else (0, 0, [])
  | none => (0, 0, [])

/-- MACD votes (source lines 89-97); the `undefined`-field guard is the
`Option`. -/
def macdVotes (m : Option MacdVal) : ℕ × ℕ × List String :=
  match m with
  | some v =>
      if v.signal < v.MACD ∧ 0 < v.histogram then (1, 0, [macdBullishTag])
      else if v.MACD < v.signal ∧ v.histogram < 0 then (0, 1, [macdBearishTag])
      else (0, 0, [])
  | none => (0, 0, [])

/-- Bollinger votes (source lines 100-106): buy on `price ≤ lower`, else sell
on `price ≥ upper`. -/
def bbVotes (price : ℚ) (bb : Option BBVal) : ℕ × ℕ × List String :=
  match bb with
  | some b =>
      if leLower price b then (1, 0, [bbLowerTag])
      else if geUpper price b then (0, 1, [bbUpperTag])
      else (0, 0, [])
  | none => (0, 0, [])

/-- Moving-average votes (source lines 109-115).  The source compares against
possibly-`undefined` latest values, and every comparison with `undefined` is
false, which is the `Option` fallthrough here. -/
def maVotes (price : ℚ) (sma20 ema12 : Option ℚ) : ℕ × ℕ × List String :=
  match sma20, ema12 with
  | some s, some e =>
      if s < price ∧ s < e then (1, 0, [maBullishTag])
      else if price < s ∧ e < s then (0, 1, [maBearishTag])
      else (0, 0, [])
  | _, _ => (0, 0, [])

/-- Componentwise accumulation of two vote triples, tags in push order. -/
def addVotes (a b : ℕ × ℕ × List String) : ℕ × ℕ × List String :=
  (a.1 + b.1, a.2.1 + b.2.1, a.2.2 ++ b.2.2)

/-- Scores and reasons accumulated by the four indicator rules, i.e. the state
of `buySignals`/`sellSignals`/`reasons` just before the volume check. -/
def preVolume (prices : List ℚ) : ℕ × ℕ × List String :=
  let snap := computeSnapshot prices
  let price := currentPrice prices
  addVotes (addVotes (addVotes (rsiVotes snap.rsi) (macdVotes snap.macd))
    (bbVotes price snap.bb)) (maVotes price snap.sma20 snap.ema12)

/-- The volume-spike test of source lines 118-122: a volume series is present
with at least 20 points and the last volume exceeds 1.5 times the mean of the
last 20 volumes. -/
def volumeSpike (volumes : Option (List ℚ)) : Bool :=
  match volumes with
  | some vs =>
      decide (20 ≤ vs.length) &&
        decide (((vs.drop (vs.length - 20)).sum / 20) * (3/2) < (vs.getLast?).getD 0)
  | none => false

/-- Scores and reasons after the volume rule (source lines 117-131): a spike
adds one vote to the strictly leading side only. -/
def scored (prices : List ℚ) (volumes : Option (List ℚ)) : ℕ × ℕ × List String :=
  let pre := preVolume prices
  if volumeSpike volumes then
    if pre.2.1 < pre.1 then (pre.1 + 1, pre.2.1, pre.2.2 ++ [volBullishTag])
    else if pre.1 < pre.2.1 then (pre.1, pre.2.1 + 1, pre.2.2 ++ [volBearishTag])
    else pre
  else pre

/-- Final accumulated `buySignals`. -/
def buyScore (prices : List ℚ) (volumes : Option (List ℚ)) : ℕ := (scored prices volumes).1

/-- Final accumulated `sellSignals`. -/
def sellScore (prices : List ℚ) (volumes : Option (List ℚ)) : ℕ := (scored prices volumes).2.1

/-- The tags the BUY-branch filter keeps (`r.includes('RSI oversold') || ...`);
over the fixed tag set substring containment coincides with membership here. -/
def buySideTags : List String := [rsiOversoldTag, macdBullishTag, bbLowerTag]

/-- The tags the SELL-branch filter keeps. -/
def sellSideTags : List String := [rsiOverboughtTag, macdBearishTag, bbUpperTag]

/-- HOLD-branch reason text (source line 151). -/
def mixedReason : String :=
  "Mixed signals or insufficient conviction. Consider waiting for clearer trend."

/-- The decision step of `getTradeSignal` (source lines 133-152): direction,
`Math.round`-ed confidence, and final reason from the accumulated scores. -/
def decideSignal (b s : ℕ) (tags : List String) : Direction × ℤ × String :=
  if s < b ∧ 2 ≤ b then
    (Direction.BUY, jsRound (min 90 ((b : ℚ) / (max (b + s) 1 : ℕ) * 100)),
      "Strong buy signal: " ++ String.intercalate ", " (tags.filter (· ∈ buySideTags)))
  else if b < s ∧ 2 ≤ s then
    (Direction.SELL, jsRound (min 90 ((s : ℚ) / (max (b + s) 1 : ℕ) * 100)),
      "Strong sell signal: " ++ String.intercalate ", " (tags.filter (· ∈ sellSideTags)))
  else (Direction.HOLD, 50, mixedReason)

/-- The indicator block of the returned `TradingSignal` (source lines 158-170):
absent RSI/SMA/EMA coerced to 0 by `|| 0`, MACD and Bollinger kept nullable. -/
structure IndicatorsOut where
  rsi : ℚ
  macd : Option MacdVal
  bollingerBands : Option BBVal
  sma20 : ℚ
  ema12 : ℚ
deriving DecidableEq, Repr

/-- Output coercion of the snapshot: `x || 0` on the numeric fields (the RSI
NaN case is already 0 in the model, see `rsiLast`). -/
def outIndicators (snap : Snapshot) : IndicatorsOut :=
  ⟨snap.rsi.getD 0, snap.macd, snap.bb, snap.sma20.getD 0, snap.ema12.getD 0⟩

/-- The empty indicator block of the insufficient-data fast path. -/
def emptyIndicators : IndicatorsOut := ⟨0, none, none, 0, 0⟩

/-- The source's `TradingSignal` record; `timestamp` holds the `new Date()`
value, modelled as the `now` argument threaded into `getTradeSignal`. -/
structure TradingSignal where
  signal : Direction
  confidence : ℤ
  reason : String
  indicators : IndicatorsOut
  timestamp : ℚ
deriving DecidableEq, Repr

/-- Fast-path reason text (source line 36). -/
def insufficientReason : String :=
  "Insufficient data for analysis (minimum 50 data points required)"

/-- `getTradeSignal` (source lines 30-190).  The `try/catch` is not
representable as reachable behaviour: with ≥ 50 points every library call and
arithmetic step is total, so the catch branch is dead and is omitted. -/
def getTradeSignal (now : ℚ) (prices : List ℚ) (volumes : Option (List ℚ)) :
    TradingSignal :=
  if prices.length < 50 then
    ⟨Direction.HOLD, 0, insufficientReason, emptyIndicators, now⟩
  else
    let snap := computeSnapshot prices
    let sc := scored prices volumes
    let dcr := decideSignal sc.1 sc.2.1 sc.2.2
    ⟨dcr.1, dcr.2.1, dcr.2.2, outIndicators snap, now⟩

/-- A `TradingSignal` with the `timestamp` field projected away. -/
def dropTimestamp (t : TradingSignal) : Direction × ℤ × String × IndicatorsOut :=
  (t.signal, t.confidence, t.reason, t.indicators)

/-- Period-over-period returns (source line 204):
`r_i = (p_{i+1} − p_i) / p_i` for each consecutive pair, empty for a series of
fewer than two prices. -/
def returnsOf (prices : List ℚ) : List ℚ :=
  List.zipWith (fun prev cur => (cur - prev) / prev) prices prices.tail

/-- Population variance of the return series (source lines 205-206), `none`
when the return series is empty: there the JS `0/0` average is NaN and every
later value is NaN too, which `none` encodes.  (JS `volatility = 100·√variance`;
the square root is irrational over ℚ, so the variance is carried and
`riskTier` compares it against the squared thresholds.) -/
def varianceOfReturns (prices : List ℚ) : Option ℚ :=
  let rs := returnsOf prices
  if rs.length = 0 then none
  else
    let avg := rs.sum / rs.length
    some ((rs.map (fun r => (r - avg) ^ 2)).sum / rs.length)

/-- The `volatility < 2 / < 5` classification of source lines 212-221,
expressed on the variance: `100·√v < 2 ↔ v < 1/2500` and
`100·√v < 5 ↔ v < 1/400`.  A NaN volatility (`none`) fails both `<`
comparisons in JS and falls to HIGH. -/
def riskTier (v : Option ℚ) : RiskLevel :=
  match v with
  | some q => if q < 1/2500 then RiskLevel.LOW
      else if q < 1/400 then RiskLevel.MEDIUM
      else RiskLevel.HIGH
  | none => RiskLevel.HIGH

/-- Tier-specific recommendation boilerplate (source lines 212-221). -/
def baseRecommendation : RiskLevel → String
  | RiskLevel.LOW => "Market showing low volatility. Good for conservative strategies."
  | RiskLevel.MEDIUM => "Moderate volatility detected. Use appropriate position sizing."
  | RiskLevel.HIGH =>
      "High volatility warning! Consider reducing position size or waiting for stability."

/-- The caution clause appended on low confidence (source line 226). -/
def cautionClause : String := " Low signal confidence suggests increased caution."

/-- The catch-branch recommendation (source line 240); the statement of what
the spec expects for degenerate input. -/
def unableReason : String := "Unable to assess risk. Exercise maximum caution."

/-- The low-confidence escalation of source line 225:
`riskLevel === 'LOW' ? 'MEDIUM' : 'HIGH'`. -/
def escalate : RiskLevel → RiskLevel
  | RiskLevel.LOW => RiskLevel.MEDIUM
  | _ => RiskLevel.HIGH

/-- Rank of a tier under the ordering LOW < MEDIUM < HIGH. -/
def tierRank : RiskLevel → ℕ
  | RiskLevel.LOW => 0
  | RiskLevel.MEDIUM => 1
  | RiskLevel.HIGH => 2

/-- The source's risk-assessment record.  `volatilityVariance` carries the
variance of returns behind the JS `volatility` number
(`volatility = round(100·√variance · 100)/100`), with `none` for the NaN
produced on a return series with no elements; no claim inspects the finite
numeric value itself. -/
structure RiskAssessment where
  riskLevel : RiskLevel
  volatilityVariance : Option ℚ
  recommendation : String
deriving DecidableEq, Repr

/-- `getRiskAssessment` (source lines 197-243).  Note the source's `try/catch`
never fires: JS arithmetic on an empty return series yields NaN rather than
throwing, so control always flows through the classification with a NaN
volatility, modelled by the `none` variance falling to HIGH in `riskTier`. -/
def getRiskAssessment (prices : List ℚ) (signal : TradingSignal) : RiskAssessment :=
  let v := varianceOfReturns prices
  let base := riskTier v
  if signal.confidence < 60 then
    ⟨escalate base, v, baseRecommendation base ++ cautionClause⟩
  else
    ⟨base, v, baseRecommendation base⟩

/-- Concrete input: 60 strictly decreasing prices in equal unit steps. -/
def dec60 : List ℚ := [60, 59, 58, 57, 56, 55, 54, 53, 52, 51, 50, 49, 48, 47, 46, 45, 44, 43, 42, 41, 40, 39, 38, 37, 36, 35, 34, 33, 32, 31, 30, 29, 28, 27, 26, 25, 24, 23, 22, 21, 20, 19, 18, 17, 16, 15, 14, 13, 12, 11, 10, 9, 8, 7, 6, 5, 4, 3, 2, 1]

/-- Concrete input: 59 increasing unit-step prices followed by 61; on this
series the indicator rules split two votes to each side before the volume
check (RSI overbought sells 2, MACD and the moving averages buy 1 each). -/
def tieSeries : List ℚ := [1, 2, 3, 4, 5, 6, 7, 8, 9, 10, 11, 12, 13, 14, 15, 16, 17, 18, 19, 20, 21, 22, 23, 24, 25, 26, 27, 28, 29, 30, 31, 32, 33, 34, 35, 36, 37, 38, 39, 40, 41, 42, 43, 44, 45, 46, 47, 48, 49, 50, 51, 52, 53, 54, 55, 56, 57, 58, 59, 61]

/-- Concrete input: 20 volumes whose last value 200 exceeds 1.5 times the mean
105 of the window, i.e. a volume spike. -/
def spikeVols : List ℚ := List.replicate 19 100 ++ [200]

/-- Concrete input: 50 constant prices. -/
def const50 : List ℚ := List.replicate 50 100

/-- Concrete signal input with confidence 0 (< 60). -/
def flatHoldSig : TradingSignal := ⟨Direction.HOLD, 0, mixedReason, emptyIndicators, 0⟩

/-- Concrete signal input with confidence 100 (≥ 60, no escalation). -/
def confidentSig : TradingSignal := ⟨Direction.HOLD, 100, mixedReason, emptyIndicators, 0⟩

/-- The decision rule of claim C1, stated over the accumulated scores. -/
def decisionSpec (now : ℚ) (prices : List ℚ) (volumes : Option (List ℚ)) : Prop :=
  (sellScore prices volumes < buyScore prices volumes ∧ 2 ≤ buyScore prices volumes →
      (getTradeSignal now prices volumes).signal = Direction.BUY ∧
      (getTradeSignal now prices volumes).confidence =
        jsRound (min 90 ((buyScore prices volumes : ℚ) /
          ((buyScore prices volumes : ℚ) + (sellScore prices volumes : ℚ)) * 100))) ∧
  (buyScore prices volumes < sellScore prices volumes ∧ 2 ≤ sellScore prices volumes →
      (getTradeSignal now prices volumes).signal = Direction.SELL ∧
      (getTradeSignal now prices volumes).confidence =
        jsRound (min 90 ((sellScore prices volumes : ℚ) /
          ((buyScore prices volumes : ℚ) + (sellScore prices volumes : ℚ)) * 100))) ∧
  (¬(sellScore prices volumes < buyScore prices volumes ∧ 2 ≤ buyScore prices volumes) ∧
    ¬(buyScore prices volumes < sellScore prices volumes ∧ 2 ≤ sellScore prices volumes) →
      (getTradeSignal now prices volumes).signal = Direction.HOLD ∧
      (getTradeSignal now prices volumes).confidence = 50)

/-- The escalation law of claim C4: riskLevel is the one-tier escalation of the
volatility-based tier (strictly higher off HIGH), caution clause appended. -/
def escalationSpec (prices : List ℚ) (sig : TradingSignal) : Prop :=
  (getRiskAssessment prices sig).riskLevel =
      escalate (riskTier (varianceOfReturns prices)) ∧
  escalate RiskLevel.LOW = RiskLevel.MEDIUM ∧
  escalate RiskLevel.MEDIUM = RiskLevel.HIGH ∧
  escalate RiskLevel.HIGH = RiskLevel.HIGH ∧
  (riskTier (varianceOfReturns prices) = RiskLevel.LOW ∨
      riskTier (varianceOfReturns prices) = RiskLevel.MEDIUM →
    tierRank (riskTier (varianceOfReturns prices)) <
      tierRank (escalate (riskTier (varianceOfReturns prices)))) ∧
  (getRiskAssessment prices sig).recommendation =
      baseRecommendation (riskTier (varianceOfReturns prices)) ++ cautionClause

/-- The tie-preservation property of claim C9: final scores equal the
pre-volume scores and the decision is HOLD. -/
def volumeTieSpec (now : ℚ) (prices : List ℚ) (volumes : Option (List ℚ)) : Prop :=
  buyScore prices volumes = (preVolume prices).1 ∧
  sellScore prices volumes = (preVolume prices).2.1 ∧
  (getTradeSignal now prices volumes).signal = Direction.HOLD

lemma getTradeSignal_long (now : ℚ) (prices : List ℚ) (volumes : Option (List ℚ))
    (h : ¬ prices.length < 50) :
    getTradeSignal now prices volumes =
      ⟨(decideSignal (buyScore prices volumes) (sellScore prices volumes)
          (scored prices volumes).2.2).1,
        (decideSignal (buyScore prices volumes) (sellScore prices volumes)
          (scored prices volumes).2.2).2.1,
        (decideSignal (buyScore prices volumes) (sellScore prices volumes)
          (scored prices volumes).2.2).2.2,
        outIndicators (computeSnapshot prices), now⟩ := by
  unfold getTradeSignal buyScore sellScore
  rw [if_neg h]

lemma decideSignal_branches (b s : ℕ) (tags : List String) :
    (s < b ∧ 2 ≤ b →
        (decideSignal b s tags).1 = Direction.BUY ∧
        (decideSignal b s tags).2.1 =
          jsRound (min 90 ((b : ℚ) / ((b : ℚ) + (s : ℚ)) * 100))) ∧
    (b < s ∧ 2 ≤ s →
        (decideSignal b s tags).1 = Direction.SELL ∧
        (decideSignal b s tags).2.1 =
          jsRound (min 90 ((s : ℚ) / ((b : ℚ) + (s : ℚ)) * 100))) ∧
    (¬(s < b ∧ 2 ≤ b) ∧ ¬(b < s ∧ 2 ≤ s) →
        (decideSignal b s tags).1 = Direction.HOLD ∧
        (decideSignal b s tags).2.1 = 50) := by
  unfold decideSignal
  by_cases h1 : s < b ∧ 2 ≤ b
  · rw [if_pos h1]
    have hm : ((max (b + s) 1 : ℕ) : ℚ) = (b : ℚ) + (s : ℚ) := by
      have he : max (b + s) 1 = b + s := by omega
      rw [he]; push_cast; ring
    exact ⟨fun _ => ⟨rfl, by rw [hm]⟩,
      fun h2 => absurd h2.1 (by omega),
      fun h3 => absurd h1 h3.1⟩
  · rw [if_neg h1]
    by_cases h2 : b < s ∧ 2 ≤ s
    · rw [if_pos h2]
      have hm : ((max (b + s) 1 : ℕ) : ℚ) = (b : ℚ) + (s : ℚ) := by
        have he : max (b + s) 1 = b + s := by omega
        rw [he]; push_cast; ring
      exact ⟨fun hh => absurd hh.1 (by omega),
        fun _ => ⟨rfl, by rw [hm]⟩,
        fun h3 => absurd h2 h3.2⟩
    · rw [if_neg h2]
      exact ⟨fun hh => absurd hh h1, fun hh => absurd hh h2, fun _ => ⟨rfl, rfl⟩⟩

lemma jsRound_min90_bounds (x : ℚ) (hx : 0 ≤ x) :
    0 ≤ jsRound (min 90 x) ∧ jsRound (min 90 x) ≤ 100 := by
  unfold jsRound
  constructor
  · apply Int.le_floor.mpr
    have h0 : (0 : ℚ) ≤ min 90 x := le_min (by norm_num) hx
    push_cast
    linarith
  · have h1 : min 90 x ≤ 90 := min_le_left _ _
    have h2 : ⌊min 90 x + 1/2⌋ < 91 := by
      apply Int.floor_lt.mpr
      push_cast
      linarith
    omega

lemma decideSignal_conf_bounds (b s : ℕ) (tags : List String) :
    0 ≤ (decideSignal b s tags).2.1 ∧ (decideSignal b s tags).2.1 ≤ 100 := by
  unfold decideSignal
  split_ifs with h1 h2
  · exact jsRound_min90_bounds _ (by positivity)
  · exact jsRound_min90_bounds _ (by positivity)
  · exact ⟨by norm_num, by norm_num⟩

/-- Claim C1: for every price series of length ≥ 50 (and optional volume
series), after the votes are accumulated `getTradeSignal` decides: buyScore
strictly ahead with buyScore ≥ 2 gives BUY with confidence
`round(min(90, buyScore/(buyScore+sellScore)·100))`; symmetrically SELL; every
other case gives HOLD with confidence 50. -/
theorem getTradeSignal_decision_rule (now : ℚ) (prices : List ℚ)
    (volumes : Option (List ℚ)) (h : 50 ≤ prices.length) :
    decisionSpec now prices volumes := by
  have hlt : ¬ prices.length < 50 := by omega
  unfold decisionSpec
  rw [getTradeSignal_long now prices volumes hlt]
  exact decideSignal_branches _ _ _

/-- Witness for C1 at the concrete 50-point constant series. -/
theorem getTradeSignal_decision_rule_witness : decisionSpec 0 const50 none :=
  getTradeSignal_decision_rule 0 const50 none (by decide)

/-- Claim C2: for every input, the confidence of the returned `TradingSignal`
is an integer in [0,100], and the returned riskLevel is LOW, MEDIUM or HIGH. -/
theorem confidence_in_range_and_risk_enum (now : ℚ) (prices : List ℚ)
    (volumes : Option (List ℚ)) (sig : TradingSignal) :
    (0 ≤ (getTradeSignal now prices volumes).confidence ∧
      (getTradeSignal now prices volumes).confidence ≤ 100) ∧
    ((getRiskAssessment prices sig).riskLevel = RiskLevel.LOW ∨
      (getRiskAssessment prices sig).riskLevel = RiskLevel.MEDIUM ∨
      (getRiskAssessment prices sig).riskLevel = RiskLevel.HIGH) := by
  constructor
  · by_cases h : prices.length < 50
    · unfold getTradeSignal
      rw [if_pos h]
      exact ⟨le_refl 0, by norm_num⟩
    · rw [getTradeSignal_long now prices volumes h]
      exact decideSignal_conf_bounds _ _ _
  · rcases hr : (getRiskAssessment prices sig).riskLevel with _ | _ | _
    · exact Or.inl rfl
    · exact Or.inr (Or.inl rfl)
    · exact Or.inr (Or.inr rfl)

/-- Claim C3: every price series of length < 50 gets the normal fast-path
return: HOLD, confidence 0, the insufficient-data reason, and an indicator
snapshot with rsi 0, macd null, bollingerBands null, sma20 0, ema12 0. -/
theorem insufficient_data_fast_path (now : ℚ) (prices : List ℚ)
    (volumes : Option (List ℚ)) (h : prices.length < 50) :
    getTradeSignal now prices volumes =
      ⟨Direction.HOLD, 0, insufficientReason, ⟨0, none, none, 0, 0⟩, now⟩ := by
  unfold getTradeSignal
  rw [if_pos h]
  rfl

/-- Witness for C3 at the empty series. -/
theorem insufficient_data_fast_path_witness :
    getTradeSignal 0 [] none =
      ⟨Direction.HOLD, 0, insufficientReason, ⟨0, none, none, 0, 0⟩, 0⟩ :=
  insufficient_data_fast_path 0 [] none (by decide)

/-- Claim C4: whenever `signal.confidence < 60`, the returned riskLevel is the
one-tier escalation of the volatility tier (LOW→MEDIUM, MEDIUM/HIGH→HIGH,
strictly higher off HIGH) and the caution clause is appended to the
recommendation. -/
theorem low_confidence_escalates_one_tier (prices : List ℚ) (sig : TradingSignal)
    (h : sig.confidence < 60) : escalationSpec prices sig := by
  unfold escalationSpec
  simp only [getRiskAssessment]
  rw [if_pos h]
  refine ⟨rfl, rfl, rfl, rfl, ?_, rfl⟩
  rintro (h1 | h1) <;> rw [h1] <;> decide

/-- Witness for C4 at the empty series and a confidence-0 signal. -/
theorem low_confidence_escalates_one_tier_witness : escalationSpec [] flatHoldSig :=
  low_confidence_escalates_one_tier [] flatHoldSig (by decide)

/-- Claim C5 (refuted): on a degenerate series (empty or single-element) the
risk assessor does NOT return the catch-block fallback: the JS 0/0 average is
NaN (no exception is raised), every comparison on it is false, and the result
is riskLevel HIGH with the high-volatility recommendation and a NaN volatility
(`none`, not 0). -/
theorem risk_empty_series_not_fallback :
    getRiskAssessment [] confidentSig =
      ⟨RiskLevel.HIGH, none, baseRecommendation RiskLevel.HIGH⟩ ∧
    getRiskAssessment [100] confidentSig =
      ⟨RiskLevel.HIGH, none, baseRecommendation RiskLevel.HIGH⟩ ∧
    baseRecommendation RiskLevel.HIGH ≠ unableReason ∧
    (⟨RiskLevel.HIGH, none, baseRecommendation RiskLevel.HIGH⟩ :
        RiskAssessment).volatilityVariance ≠ some 0 := by
  exact ⟨rfl, rfl, by decide, by decide⟩

/-- Claim C6 (refuted as stated): two calls on identical inputs do not return
identical values in every field, because the timestamp field records the
wall-clock instant of the call. -/
theorem timestamp_breaks_determinism :
    getTradeSignal 0 [] none ≠ getTradeSignal 1 [] none := by
  intro h
  have ht : (0 : ℚ) = 1 := congrArg TradingSignal.timestamp h
  norm_num at ht

/-- Claim C6 (amended): apart from the timestamp field, `getTradeSignal` is
deterministic in its inputs, and `getRiskAssessment` is fully deterministic. -/
theorem deterministic_apart_from_timestamp (t1 t2 : ℚ) (prices : List ℚ)
    (volumes : Option (List ℚ)) (sig : TradingSignal) :
    dropTimestamp (getTradeSignal t1 prices volumes) =
      dropTimestamp (getTradeSignal t2 prices volumes) ∧
    getRiskAssessment prices sig = getRiskAssessment prices sig := by
  refine ⟨?_, rfl⟩
  unfold getTradeSignal dropTimestamp
  by_cases h : prices.length < 50
  · simp only [if_pos h]
  · simp only [if_neg h]

/-- Claim C7 (refuted): the RSI rule adds 2 to buyScore only when the latest
RSI is nonzero AND below 30 — the source's `latestRSI &&` truthiness guard
skips the vote when the RSI is exactly 0, which happens on the strictly
decreasing 60-point series, where RSI = 0 < 30 yet no vote is added. -/
theorem rsi_zero_skips_oversold_vote :
    rsiLast dec60 = some 0 ∧
    rsiVotes (rsiLast dec60) = (0, 0, []) ∧
    (∀ r : ℚ, (rsiVotes (some r)).1 = 2 ↔ r ≠ 0 ∧ r < 30) := by
  have h : rsiLast dec60 = some 0 := by
    norm_num [rsiLast, wilder, gains, losses, dec60]
  refine ⟨h, by rw [h]; rfl, ?_⟩
  intro r
  show (if r ≠ 0 ∧ r < 30 then ((2, 0, [rsiOversoldTag]) : ℕ × ℕ × List String)
      else if r ≠ 0 ∧ 70 < r then (0, 2, [rsiOverboughtTag])
      else (0, 0, [])).1 = 2 ↔ r ≠ 0 ∧ r < 30
  split_ifs with h1 h2
  · simp [h1]
  · simp [h1]
  · simp [h1]

set_option maxRecDepth 20000 in
set_option maxHeartbeats 8000000 in
/-- Claim C8 (refuted): on the strictly decreasing 60-point unit-step series,
`getTradeSignal` does not return BUY and buyScore does not reach sellScore:
the RSI is exactly 0, the falsy guard drops the expected oversold vote, and
the accumulated scores are buy 0, sell 1, giving HOLD. -/
theorem decreasing_series_not_buy :
    buyScore dec60 none = 0 ∧ sellScore dec60 none = 1 ∧
    (getTradeSignal 0 dec60 none).signal = Direction.HOLD ∧
    ¬((getTradeSignal 0 dec60 none).signal = Direction.BUY ∨
        sellScore dec60 none ≤ buyScore dec60 none) := by
  have hsc : scored dec60 none = (0, 1, [maBearishTag]) := by
    norm_num [scored, preVolume, computeSnapshot, rsiLast, macdLast, macdLineSeq,
      emaSeq, emaStep, emaLast, smaLast, bbLast, wilder, gains, losses,
      currentPrice, rsiVotes, macdVotes, bbVotes, maVotes, addVotes, leLower,
      geUpper, volumeSpike, dec60]
  have hb : buyScore dec60 none = 0 := by unfold buyScore; rw [hsc]
  have hs : sellScore dec60 none = 1 := by unfold sellScore; rw [hsc]
  have hsig : (getTradeSignal 0 dec60 none).signal = Direction.HOLD := by
    rw [getTradeSignal_long 0 dec60 none (by decide)]
    show (decideSignal (buyScore dec60 none) (sellScore dec60 none)
        (scored dec60 none).2.2).1 = Direction.HOLD
    rw [hb, hs]
    rfl
  refine ⟨hb, hs, hsig, ?_⟩
  rintro (hBuy | hle)
  · rw [hsig] at hBuy
    exact absurd hBuy (by decide)
  · rw [hb, hs] at hle
    omega

/-- Claim C9: a volume spike never breaks a tie — when the pre-volume scores
are equal, the volume rule leaves both scores unchanged and the decision is
HOLD. -/
theorem volume_spike_preserves_tie (now : ℚ) (prices : List ℚ)
    (volumes : Option (List ℚ)) (h50 : 50 ≤ prices.length)
    (hTie : (preVolume prices).1 = (preVolume prices).2.1)
    (hSpike : volumeSpike volumes = true) :
    volumeTieSpec now prices volumes := by
  have hsc : scored prices volumes = preVolume prices := by
    unfold scored
    rw [if_pos hSpike, if_neg (by omega), if_neg (by omega)]
  have hbs : buyScore prices volumes = sellScore prices volumes := by
    unfold buyScore sellScore
    rw [hsc]
    exact hTie
  refine ⟨by unfold buyScore; rw [hsc], by unfold sellScore; rw [hsc], ?_⟩
  rw [getTradeSignal_long now prices volumes (by omega)]
  have h3 := (decideSignal_branches (buyScore prices volumes)
      (sellScore prices volumes) ((scored prices volumes).2.2)).2.2
  exact (h3 ⟨by omega, by omega⟩).1

set_option maxRecDepth 20000 in
set_option maxHeartbeats 8000000 in
/-- Witness for C9: on `tieSeries` the four indicator rules tie 2-2 and
`spikeVols` is a volume spike; the tie stands and the decision is HOLD. -/
theorem volume_spike_preserves_tie_witness :
    volumeTieSpec 0 tieSeries (some spikeVols) :=
  volume_spike_preserves_tie 0 tieSeries (some spikeVols) (by decide)
    (by norm_num [preVolume, computeSnapshot, rsiLast, macdLast, macdLineSeq,
      emaSeq, emaStep, emaLast, smaLast, bbLast, wilder, gains, losses,
      currentPrice, rsiVotes, macdVotes, bbVotes, maVotes, addVotes, leLower,
      geUpper, tieSeries])
    (by norm_num [volumeSpike, spikeVols, List.replicate])

/-- Claim C10: when the last price sits on or past both collapsed Bollinger
bands at once (price ≤ lower and price ≥ upper), the Bollinger rule adds
exactly one buy vote and leaves sellScore untouched (buy precedence of the
if/else-if). -/
theorem bollinger_buy_precedence (prices : List ℚ) (bb : BBVal)
    (h50 : 50 ≤ prices.length) (hbb : bbLast prices = some bb)
    (hle : leLower (currentPrice prices) bb = true)
    (hge : geUpper (currentPrice prices) bb = true) :
    bbVotes (currentPrice prices) (bbLast prices) = (1, 0, [bbLowerTag]) := by
  rw [hbb]
  show (if leLower (currentPrice prices) bb = true then
      ((1, 0, [bbLowerTag]) : ℕ × ℕ × List String)
    else if geUpper (currentPrice prices) bb = true then (0, 1, [bbUpperTag])
    else (0, 0, [])) = (1, 0, [bbLowerTag])
  rw [if_pos hle]

/-- Witness for C10: the constant 50-point series collapses the bands onto the
price, both band conditions hold, and only the buy vote fires. -/
theorem bollinger_buy_precedence_witness :
    bbVotes (currentPrice const50) (bbLast const50) = (1, 0, [bbLowerTag]) :=
  bollinger_buy_precedence const50 ⟨100, 0⟩ (by decide)
    (by norm_num [bbLast, const50, List.replicate])
    (by norm_num [leLower, currentPrice, const50, List.replicate])
    (by norm_num [geUpper, currentPrice, const50, List.replicate])

end TradeBot
